import Mathlib

/-!
Shallow embedding of `src/BiasCheck.py` (class `BiasCheck`).

The Python class is a sequential content-moderation pipeline over a remote
language-model service.  We embed it as pure Lean functions:

* Every remote interaction (`client.responses.create` inside a `try` block)
  is modelled by an `Option String` argument: `some t` is a successful call
  whose `output_text` is `t`; `none` is any exception raised during the
  remote interaction (transport/service error).  Each wrapper additionally
  returns the list of remote call sites it actually reached, so that
  "the oracle is never invoked" is expressible.
* Python `Counter` objects are modelled observationally as total functions
  from keys to `Nat` (a `Counter` returns `0` for any missing key).  The keys
  that occur in the program are the booleans `True`/`False` and the strings
  `"true"`/`"false"` (Python keeps these distinct: `True != "true"`), hence
  the key type `CKey` below.
* The statistics file is modelled by `FileState`; `json.load` failing on an
  unparseable file is the `Except.error` branch of `load_stats`.
-/

namespace BiasCheck

/-- A key of a Python `Counter` as used in `BiasCheck`: either a boolean
(`stats["fallbacks"][True]`, `stats["fallbacks"][not passed]`, ...) or a
string (the JSON object keys `"true"`/`"false"` read back by `_load_stats`).
Python treats `True` and `"true"` as distinct keys. -/
inductive CKey where
  | kbool : Bool → CKey
  | kstr : String → CKey
deriving DecidableEq, Repr

/-- A Python `Counter`, observationally: lookup of any key, with missing keys
mapped to `0` (the `Counter.__getitem__` default). -/
def PyCounter := CKey → Nat

/-- `Counter({True: t, False: f})` — boolean keys only. -/
def boolCounter (t f : Nat) : PyCounter := fun k =>
  match k with
  | CKey.kbool true => t
  | CKey.kbool false => f
  | _ => 0

/-- `Counter({"true": t, "false": f})` — string keys only, as produced by
`Counter(data.get(...))` when `data` was read from the JSON file written by
`_save_stats`. -/
def strCounter (t f : Nat) : PyCounter := fun k =>
  match k with
  | CKey.kstr s => if s = "true" then t else if s = "false" then f else 0
  | _ => 0

/-- `counter[key] += 1`. -/
def bump (c : PyCounter) (k : CKey) : PyCounter := fun j =>
  if j = k then c j + 1 else c j

/-- The in-memory `self.stats` dictionary: two counters. -/
structure Stats where
  fallbacks : PyCounter
  bias : PyCounter

/-- Contents of the statistics file `self.stats_file`.

* `absent`: the file does not exist (`os.path.exists` is false).
* `invalid`: the file exists but `json.load` raises (not valid JSON).
* `emptyObject`: the file exists and holds a JSON object carrying neither a
  `"fallbacks"` nor a `"bias"` key (so `data.get` falls back to its default).
* `record ft ff bt bf`: the file holds
  `{"fallbacks": {"true": ft, "false": ff}, "bias": {"true": bt, "false": bf}}`,
  the exact shape `_save_stats` writes. -/
inductive FileState where
  | absent
  | invalid
  | emptyObject
  | record (ft ff bt bf : Nat)
deriving DecidableEq, Repr

/-- `BiasCheck._load_stats` (lines 55-73).  If the file exists, `json.load`
runs unprotected: an unparseable file raises `json.JSONDecodeError` to the
caller, modelled as `Except.error`.  A parsed record yields
`Counter(data.get("fallbacks", {True: 0, False: 0}))`: string-keyed counters
when the key is present, the boolean-keyed zero default when it is not.  A
missing file yields `Counter({True: 0, False: 0})` for both. -/
def load_stats : FileState → Except String Stats
  | FileState.absent =>
      Except.ok { fallbacks := boolCounter 0 0, bias := boolCounter 0 0 }
  | FileState.invalid => Except.error "json.JSONDecodeError"
  | FileState.emptyObject =>
      Except.ok { fallbacks := boolCounter 0 0, bias := boolCounter 0 0 }
  | FileState.record ft ff bt bf =>
      Except.ok { fallbacks := strCounter ft ff, bias := strCounter bt bf }

/-- `BiasCheck._save_stats` (lines 75-95): writes
`{"fallbacks": {"true": stats["fallbacks"][True], "false": stats["fallbacks"][False]},
  "bias": {"true": stats["bias"][True], "false": stats["bias"][False]}}`,
overwriting the file.  Note the lookups use the boolean keys `True`/`False`.
(Write failures are logged and swallowed; the returned `FileState` is the
content of a successful write.) -/
def save_stats (s : Stats) : FileState :=
  FileState.record
    (s.fallbacks (CKey.kbool true)) (s.fallbacks (CKey.kbool false))
    (s.bias (CKey.kbool true)) (s.bias (CKey.kbool false))

/-- `self.fallback` (line 37). -/
def fallbackMsg : String := "Sorry, I cannot assist with that."

/-- The rejection string returned by `filter_output` (line 178). -/
def rejectionMsg : String := "Bias check is not passed"

/-- The literal returned by `llm_output` when the generation call raises
(line 162). -/
def genErrorMsg : String := "Error while calling the model."

/-- Python's substring test `needle in hay`. -/
def pyIn (needle hay : String) : Bool := decide (needle.data <:+: hay.data)

/-- The three remote call sites of the pipeline. -/
inductive CallSite where
  | promptCheck
  | generation
  | outputCheck
deriving DecidableEq, Repr

/-- `BiasCheck._check_prompt` (lines 111-138).  Returns `true` when the
prompt PASSES (is judged not biased).  An empty prompt or the fallback
message short-circuits to `false` before any remote interaction.  Otherwise
the remote call is attempted: on success the prompt passes iff `"yes"` does
not occur in the response text (line 135); any exception yields `false`
(line 138).  The second component lists the remote call sites reached. -/
def check_prompt (resp : Option String) (prompt : String) :
    Bool × List CallSite :=
  if prompt = "" ∨ prompt = fallbackMsg then (false, [])
  else
    match resp with
    | none => (false, [CallSite.promptCheck])
    | some t => (!(pyIn "yes" t), [CallSite.promptCheck])

/-- `BiasCheck._check_output_bias_via_llm` (lines 180-205).  Returns `true`
when the output is judged BIASED.  The remote call is always attempted: on
success the output is biased iff `"Yes"` occurs in the response text
(line 203); any exception yields `true` (line 205). -/
def check_output_bias (resp : Option String) (output : String) :
    Bool × List CallSite :=
  -- `output` only appears inside the instruction text sent to the remote
  -- model, so it does not influence the local result
  match resp with
  | none => (true, [CallSite.outputCheck])
  | some t => (pyIn "Yes" t, [CallSite.outputCheck])

/-- `BiasCheck.llm_output` (lines 140-162).  A prompt equal to the fallback
message is answered by the fallback message without a remote call; otherwise
the generation call is attempted, returning its `output_text` on success and
the literal error string on any exception. -/
def llm_output (resp : Option String) (prompt : String) :
    String × List CallSite :=
  if prompt = fallbackMsg then (fallbackMsg, [])
  else
    match resp with
    | none => (genErrorMsg, [CallSite.generation])
    | some t => (t, [CallSite.generation])

/-- `self.config` as set in `__init__` (lines 38-41). -/
structure Config where
  baseModel : String
  guardrails : Bool

/-- The mutable per-instance state touched by the pipeline: the in-memory
counters and the statistics file. -/
structure PipeState where
  stats : Stats
  file : FileState

/-- `BiasCheck.filter_prompt` (lines 97-109): consult the prompt oracle,
increment `stats["fallbacks"][not passed]`, persist the counters, and return
the prompt when it passed, else the fallback message. -/
def filter_prompt (resp : Option String) (input : String) (ps : PipeState) :
    String × PipeState × List CallSite :=
  let cp := check_prompt resp input
  let stats1 : Stats :=
    { ps.stats with fallbacks := bump ps.stats.fallbacks (CKey.kbool (!cp.1)) }
  ((if cp.1 then input else fallbackMsg),
   { stats := stats1, file := save_stats stats1 }, cp.2)

/-- `BiasCheck.filter_output` (lines 164-178): if guardrails are disabled or
the answer equals the fallback message, return it untouched; otherwise
consult the output oracle, increment `stats["bias"][is_biased]`, persist, and
return the answer or the rejection string. -/
def filter_output (cfg : Config) (resp : Option String) (out : String)
    (ps : PipeState) : String × PipeState × List CallSite :=
  if cfg.guardrails = false ∨ out = fallbackMsg then (out, ps, [])
  else
    let ob := check_output_bias resp out
    let stats1 : Stats :=
      { ps.stats with bias := bump ps.stats.bias (CKey.kbool ob.1) }
    ((if ob.1 then rejectionMsg else out),
     { stats := stats1, file := save_stats stats1 }, ob.2)

/-- The responses (or exceptions) of the three remote call sites for one
execution of `run`. -/
structure Oracles where
  promptResp : Option String
  genResp : Option String
  outResp : Option String

/-- Everything one call to `run` produces: the returned text, the updated
instance state, and the remote call sites reached. -/
structure RunOut where
  result : String
  state : PipeState
  calls : List CallSite

/-- `BiasCheck.run` (lines 207-225): filter the prompt; if the filtered
prompt equals the fallback, return the fallback; otherwise generate an
answer and filter it. -/
def run (cfg : Config) (o : Oracles) (input : String) (ps : PipeState) :
    RunOut :=
  let fp := filter_prompt o.promptResp input ps
  if fp.1 = fallbackMsg then
    { result := fallbackMsg, state := fp.2.1, calls := fp.2.2 }
  else
    let lo := llm_output o.genResp fp.1
    let fo := filter_output cfg o.outResp lo.1 fp.2.1
    { result := fo.1, state := fo.2.1, calls := fp.2.2 ++ lo.2 ++ fo.2.2 }

/-- `N` successive calls to `run()` on one instance, threading the instance
state; the per-run remote responses are given by the list. -/
def runN (cfg : Config) (os : List Oracles) (input : String)
    (ps : PipeState) : PipeState :=
  match os with
  | [] => ps
  | o :: rest => runN cfg rest input (run cfg o input ps).state

/-- A Python value passed as the `user_input` argument of `__init__`:
`None`, a string, or a value of any other type. -/
inductive PyVal where
  | pynone
  | pystr (s : String)
  | pyother
deriving DecidableEq, Repr

/-- Python's `not s.strip()`: the string strips to nothing, i.e. every
character is whitespace (in particular the empty string is blank). -/
def isBlank (s : String) : Bool := s.data.all Char.isWhitespace

/-- The input-acquisition part of `BiasCheck.__init__` (lines 29-34) together
with `_get_input` (lines 46-53).  `console` is the text an interactive read
would produce.  A non-string, non-`None` argument raises `ValueError`; an
argument that is `None` or falsy (the empty string) is replaced by the
console read; a resolved text that strips to nothing raises `ValueError`. -/
def init_user_input (console : String) : PyVal → Except String String
  | PyVal.pyother => Except.error "user_input must be a string or None"
  | PyVal.pynone =>
      if isBlank console then Except.error "Input text cannot be empty"
      else Except.ok console
  | PyVal.pystr s =>
      let resolved := if s = "" then console else s
      if isBlank resolved then Except.error "Input text cannot be empty"
      else Except.ok resolved

/-! ### Concrete instances (used by the witness theorems) -/

/-- A configuration with guardrails enabled. -/
def cfgOn : Config := { baseModel := "gpt-3.5-turbo", guardrails := true }

/-- A configuration with guardrails disabled. -/
def cfgOff : Config := { baseModel := "gpt-3.5-turbo", guardrails := false }

/-- The instance state of a fresh instance started without a prior
statistics file. -/
def psZero : PipeState :=
  { stats := { fallbacks := boolCounter 0 0, bias := boolCounter 0 0 },
    file := FileState.absent }

/-- One in-memory statistics state with a single recorded non-fallback run. -/
def statsOne : Stats := { fallbacks := boolCounter 1 0, bias := boolCounter 0 0 }

/-- Remote responses for a run where every call succeeds and neither oracle
flags bias. -/
def oClean : Oracles :=
  { promptResp := some "No", genResp := some "The answer.", outResp := some "No" }

/-- Remote responses for a run where the prompt oracle flags bias. -/
def oFlagged : Oracles :=
  { promptResp := some "yes", genResp := some "The answer.", outResp := some "No" }

end BiasCheck

namespace BiasCheck

/-! ## Helper lemmas -/

theorem check_prompt_at_fallback (resp : Option String) :
    check_prompt resp fallbackMsg = (false, []) := by
  simp [check_prompt]

theorem check_prompt_calls (resp : Option String) (p : String) :
    (check_prompt resp p).2 = [] ∨
    (check_prompt resp p).2 = [CallSite.promptCheck] := by
  simp only [check_prompt]
  split
  · exact Or.inl rfl
  · cases resp <;> exact Or.inr rfl

theorem bump_le (c : PyCounter) (j k : CKey) : c k ≤ bump c j k := by
  unfold bump
  split <;> omega

theorem bump_bool_sum (c : PyCounter) (b : Bool) :
    bump c (CKey.kbool b) (CKey.kbool true)
      + bump c (CKey.kbool b) (CKey.kbool false)
      = c (CKey.kbool true) + c (CKey.kbool false) + 1 := by
  cases b <;> simp [bump] <;> omega

/-! ## Claims -/

/-- C10: a prompt that is empty or equal to the fallback message makes
`_check_prompt` return "not passed" without reaching the remote call site,
and `llm_output` applied to the fallback message returns the fallback
message without reaching the generation call site. -/
theorem shortcircuit_no_remote_call (resp : Option String) (p : String)
    (h : p = "" ∨ p = fallbackMsg) :
    check_prompt resp p = (false, []) ∧
    llm_output resp fallbackMsg = (fallbackMsg, []) := by
  refine ⟨?_, ?_⟩
  · simp only [check_prompt]
    rw [if_pos h]
  · simp [llm_output]

/-- Witness for C10 at the empty prompt. -/
theorem shortcircuit_no_remote_call_witness :
    check_prompt (some "No") "" = (false, []) ∧
    llm_output (some "No") fallbackMsg = (fallbackMsg, []) :=
  shortcircuit_no_remote_call (some "No") "" (Or.inl rfl)

/-- C9: absent service errors and absent the short-circuit guard, the prompt
oracle judges the prompt biased (returns "not passed") exactly when the
lowercase token "yes" occurs in the response text, and the output oracle
judges the output biased exactly when the token "Yes" occurs in the response
text. -/
theorem oracle_token_matching :
    (∀ p t : String, p ≠ "" → p ≠ fallbackMsg →
        ((check_prompt (some t) p).1 = false ↔ pyIn "yes" t = true)) ∧
    (∀ out t : String,
        ((check_output_bias (some t) out).1 = true ↔ pyIn "Yes" t = true)) := by
  refine ⟨?_, ?_⟩
  · intro p t hp hf
    simp only [check_prompt]
    rw [if_neg (not_or.mpr ⟨hp, hf⟩)]
    cases hy : pyIn "yes" t <;> simp [hy]
  · intro out t
    simp [check_output_bias]

/-- Witness for C9 on a response containing "yes" and one containing "Yes". -/
theorem oracle_token_matching_witness :
    ((check_prompt (some "yes.") "hello").1 = false ↔ pyIn "yes" "yes." = true) ∧
    ((check_output_bias (some "Yes.") "an answer").1 = true ↔ pyIn "Yes" "Yes." = true) :=
  ⟨oracle_token_matching.1 "hello" "yes." (by decide) (by decide),
   oracle_token_matching.2 "an answer" "Yes."⟩

/-- C2, counterexample: the claim says that on a service error `_check_prompt`
defaults to "not biased" so the prompt passes through; on the concrete prompt
"hello" with the remote call raising, `_check_prompt` returns `false`
("not passed", i.e. judged biased), so the prompt does NOT pass through. -/
theorem check_prompt_error_cex : (check_prompt none "hello").1 = false := by
  decide

/-- C2, amended: on a service error BOTH oracles default to "biased":
`_check_prompt` returns "not passed" (so the prompt is replaced by the
fallback message) and `_check_output_bias_via_llm` returns "biased" (so the
output is suppressed). -/
theorem error_defaults_both_biased :
    (∀ p : String, (check_prompt none p).1 = false) ∧
    (∀ out : String, (check_output_bias none out).1 = true) := by
  refine ⟨?_, ?_⟩
  · intro p
    simp only [check_prompt]
    split <;> rfl
  · intro out
    rfl

/-- C7, counterexample: the claim says a malformed record loads as all-zero
counters without raising; in fact `json.load` runs unprotected in
`_load_stats`, so an unparseable record raises to the caller. -/
theorem load_stats_malformed_cex :
    load_stats FileState.invalid = Except.error "json.JSONDecodeError" := rfl

/-- C7, amended: `_load_stats` returns counters with every entry zero when
the statistics file does not exist (without raising), but an unparseable
record raises an exception to the caller. -/
theorem load_stats_defaults_amended :
    (∃ st, load_stats FileState.absent = Except.ok st ∧
        ∀ k, st.fallbacks k = 0 ∧ st.bias k = 0) ∧
    (∃ e, load_stats FileState.invalid = Except.error e) := by
  refine ⟨⟨_, rfl, ?_⟩, ⟨_, rfl⟩⟩
  intro k
  refine ⟨?_, ?_⟩ <;>
    (cases k with
      | kbool b => cases b <;> rfl
      | kstr s => rfl)

/-- C3 (code bug, evaluated at the failing state): starting from counters
with `fallbacks[True] = 1`, `_save_stats` writes
`{"fallbacks": {"true": 1, "false": 0}, ...}`; `_load_stats` in a new
instance turns that file into STRING-keyed counters, so the boolean-keyed
lookups that `_save_stats` performs all read 0: the counts a subsequent
`_save_stats` would write are zeroed by the round-trip, not preserved. -/
theorem stats_roundtrip_drops_counts :
    save_stats statsOne = FileState.record 1 0 0 0 ∧
    ∃ st, load_stats (save_stats statsOne) = Except.ok st ∧
      save_stats st = FileState.record 0 0 0 0 := by
  exact ⟨rfl, ⟨_, rfl, rfl⟩⟩

/-- C6: when guardrails are disabled or the answer equals the fallback
message, `filter_output` returns the answer unchanged, reaches no remote
call site, and leaves the counters and the statistics file untouched,
whatever the output oracle would have answered. -/
theorem filter_output_skips (cfg : Config) (resp : Option String)
    (out : String) (ps : PipeState)
    (h : cfg.guardrails = false ∨ out = fallbackMsg) :
    filter_output cfg resp out ps = (out, ps, []) := by
  simp only [filter_output]
  rw [if_pos h]

/-- Witness for C6 with guardrails disabled and an output oracle that would
report "biased". -/
theorem filter_output_skips_witness :
    filter_output cfgOff (some "Yes") "an answer" psZero
      = ("an answer", psZero, []) :=
  filter_output_skips cfgOff (some "Yes") "an answer" psZero (Or.inl rfl)


/-! ## Run-level helper lemmas -/

theorem filter_output_result (cfg : Config) (resp : Option String)
    (out : String) (ps : PipeState) :
    (filter_output cfg resp out ps).1 = out ∨
    (filter_output cfg resp out ps).1 = rejectionMsg := by
  unfold filter_output
  split
  · exact Or.inl rfl
  · dsimp only
    cases hob : (check_output_bias resp out).1 <;> simp [hob]

theorem filter_output_fallbacks (cfg : Config) (resp : Option String)
    (out : String) (ps : PipeState) :
    (filter_output cfg resp out ps).2.1.stats.fallbacks = ps.stats.fallbacks := by
  unfold filter_output
  split <;> rfl

theorem filter_output_bias_le (cfg : Config) (resp : Option String)
    (out : String) (ps : PipeState) (k : CKey) :
    ps.stats.bias k ≤ (filter_output cfg resp out ps).2.1.stats.bias k := by
  unfold filter_output
  split
  · exact le_refl _
  · exact bump_le _ _ _

theorem run_not_passed (cfg : Config) (o : Oracles) (input : String)
    (ps : PipeState) (hb : (check_prompt o.promptResp input).1 = false) :
    run cfg o input ps =
      { result := fallbackMsg,
        state :=
          { stats := { fallbacks := bump ps.stats.fallbacks (CKey.kbool true),
                       bias := ps.stats.bias },
            file := save_stats
              { fallbacks := bump ps.stats.fallbacks (CKey.kbool true),
                bias := ps.stats.bias } },
        calls := (check_prompt o.promptResp input).2 } := by
  simp [run, filter_prompt, hb]

theorem run_passed (cfg : Config) (o : Oracles) (input : String)
    (ps : PipeState) (hp : (check_prompt o.promptResp input).1 = true) :
    run cfg o input ps =
      (let st1 : Stats := { fallbacks := bump ps.stats.fallbacks (CKey.kbool false),
                            bias := ps.stats.bias };
       let ps1 : PipeState := { stats := st1, file := save_stats st1 };
       let lo := llm_output o.genResp input;
       let fo := filter_output cfg o.outResp lo.1 ps1;
       { result := fo.1, state := fo.2.1,
         calls := (check_prompt o.promptResp input).2 ++ lo.2 ++ fo.2.2 }) := by
  have hne : input ≠ fallbackMsg := by
    intro h
    rw [h, check_prompt_at_fallback] at hp
    exact Bool.false_ne_true hp
  simp [run, filter_prompt, hp, hne]

theorem run_fallbacks_step (cfg : Config) (o : Oracles) (input : String)
    (ps : PipeState) :
    ((run cfg o input ps).state.stats.fallbacks (CKey.kbool true)
        = ps.stats.fallbacks (CKey.kbool true) + 1 ∧
     (run cfg o input ps).state.stats.fallbacks (CKey.kbool false)
        = ps.stats.fallbacks (CKey.kbool false)) ∨
    ((run cfg o input ps).state.stats.fallbacks (CKey.kbool true)
        = ps.stats.fallbacks (CKey.kbool true) ∧
     (run cfg o input ps).state.stats.fallbacks (CKey.kbool false)
        = ps.stats.fallbacks (CKey.kbool false) + 1) := by
  cases hp : (check_prompt o.promptResp input).1 with
  | false =>
    left
    rw [run_not_passed cfg o input ps hp]
    exact ⟨by simp [bump], by simp [bump]⟩
  | true =>
    right
    rw [run_passed cfg o input ps hp]
    dsimp only
    rw [filter_output_fallbacks]
    exact ⟨by simp [bump], by simp [bump]⟩

theorem run_stats_le (cfg : Config) (o : Oracles) (input : String)
    (ps : PipeState) (k : CKey) :
    ps.stats.fallbacks k ≤ (run cfg o input ps).state.stats.fallbacks k ∧
    ps.stats.bias k ≤ (run cfg o input ps).state.stats.bias k := by
  cases hp : (check_prompt o.promptResp input).1 with
  | false =>
    rw [run_not_passed cfg o input ps hp]
    exact ⟨bump_le _ _ _, le_refl _⟩
  | true =>
    rw [run_passed cfg o input ps hp]
    dsimp only
    refine ⟨?_, ?_⟩
    · rw [filter_output_fallbacks]
      exact bump_le _ _ _
    · exact filter_output_bias_le cfg o.outResp (llm_output o.genResp input).1
        { stats := { fallbacks := bump ps.stats.fallbacks (CKey.kbool false),
                     bias := ps.stats.bias },
          file := save_stats
            { fallbacks := bump ps.stats.fallbacks (CKey.kbool false),
              bias := ps.stats.bias } } k

theorem run_fallbacks_sum (cfg : Config) (o : Oracles) (input : String)
    (ps : PipeState) :
    (run cfg o input ps).state.stats.fallbacks (CKey.kbool true)
      + (run cfg o input ps).state.stats.fallbacks (CKey.kbool false)
      = ps.stats.fallbacks (CKey.kbool true)
        + ps.stats.fallbacks (CKey.kbool false) + 1 := by
  rcases run_fallbacks_step cfg o input ps with ⟨h1, h2⟩ | ⟨h1, h2⟩ <;> omega

theorem runN_fallbacks_sum (cfg : Config) (os : List Oracles) (input : String)
    (ps : PipeState) :
    (runN cfg os input ps).stats.fallbacks (CKey.kbool true)
      + (runN cfg os input ps).stats.fallbacks (CKey.kbool false)
      = ps.stats.fallbacks (CKey.kbool true)
        + ps.stats.fallbacks (CKey.kbool false) + os.length := by
  induction os generalizing ps with
  | nil => simp [runN]
  | cons o rest ih =>
    simp only [runN, List.length_cons]
    rw [ih]
    have hstep := run_fallbacks_sum cfg o input ps
    omega

/-! ## Remaining claims -/

/-- C4: whenever the prompt oracle judges the prompt biased (`_check_prompt`
returns "not passed"), `run` returns the fallback message, the generation
call site and the output-oracle call site are never reached, and both
boolean entries of the bias counter are unchanged. -/
theorem prompt_biased_short_circuits (cfg : Config) (o : Oracles)
    (input : String) (ps : PipeState)
    (hb : (check_prompt o.promptResp input).1 = false) :
    (run cfg o input ps).result = fallbackMsg ∧
    CallSite.generation ∉ (run cfg o input ps).calls ∧
    CallSite.outputCheck ∉ (run cfg o input ps).calls ∧
    (run cfg o input ps).state.stats.bias (CKey.kbool true)
        = ps.stats.bias (CKey.kbool true) ∧
    (run cfg o input ps).state.stats.bias (CKey.kbool false)
        = ps.stats.bias (CKey.kbool false) := by
  rw [run_not_passed cfg o input ps hb]
  refine ⟨rfl, ?_, ?_, rfl, rfl⟩ <;>
    (rcases check_prompt_calls o.promptResp input with h | h <;> simp [h])

/-- Witness for C4: a prompt-oracle response containing "yes" on the prompt
"hello". -/
theorem prompt_biased_short_circuits_witness :
    (run cfgOn oFlagged "hello" psZero).result = fallbackMsg ∧
    CallSite.generation ∉ (run cfgOn oFlagged "hello" psZero).calls ∧
    CallSite.outputCheck ∉ (run cfgOn oFlagged "hello" psZero).calls ∧
    (run cfgOn oFlagged "hello" psZero).state.stats.bias (CKey.kbool true)
        = psZero.stats.bias (CKey.kbool true) ∧
    (run cfgOn oFlagged "hello" psZero).state.stats.bias (CKey.kbool false)
        = psZero.stats.bias (CKey.kbool false) :=
  prompt_biased_short_circuits cfgOn oFlagged "hello" psZero (by decide)

/-- C1: for every non-empty input, `run` returns the fallback message, the
rejection string, or the generated answer (which is the literal error string
when the generation call raises).  `run` is a total Lean function over all
oracle outcomes, which embeds the fact that no exception escapes `run()`
once construction has succeeded: every remote failure is caught and mapped
to a default inside the callees. -/
theorem run_returns_trichotomy (cfg : Config) (o : Oracles) (input : String)
    (ps : PipeState) (hne : input ≠ "") :
    (run cfg o input ps).result = fallbackMsg ∨
    (run cfg o input ps).result = rejectionMsg ∨
    (run cfg o input ps).result = (llm_output o.genResp input).1 := by
  cases hp : (check_prompt o.promptResp input).1 with
  | false => exact Or.inl (by rw [run_not_passed cfg o input ps hp])
  | true =>
    rw [run_passed cfg o input ps hp]
    dsimp only
    rcases filter_output_result cfg o.outResp (llm_output o.genResp input).1
        { stats := { fallbacks := bump ps.stats.fallbacks (CKey.kbool false),
                     bias := ps.stats.bias },
          file := save_stats
            { fallbacks := bump ps.stats.fallbacks (CKey.kbool false),
              bias := ps.stats.bias } } with h | h
    · exact Or.inr (Or.inr h)
    · exact Or.inr (Or.inl h)

/-- Witness for C1 on the input "hi" with all remote calls succeeding. -/
theorem run_returns_trichotomy_witness :
    (run cfgOn oClean "hi" psZero).result = fallbackMsg ∨
    (run cfgOn oClean "hi" psZero).result = rejectionMsg ∨
    (run cfgOn oClean "hi" psZero).result = (llm_output oClean.genResp "hi").1 :=
  run_returns_trichotomy cfgOn oClean "hi" psZero (by decide)

/-- C5: starting from the counters a fresh instance holds (boolean-keyed
fallback entries summing to 0), after N runs on one instance
`fallbacks[True] + fallbacks[False] = N`; moreover every single run
increments exactly one of the two boolean fallback entries by exactly one,
and no counter entry ever decreases across a run. -/
theorem fallback_counters_invariant (cfg : Config) (input : String)
    (os : List Oracles) (ps : PipeState)
    (h0 : ps.stats.fallbacks (CKey.kbool true)
        + ps.stats.fallbacks (CKey.kbool false) = 0) :
    ((runN cfg os input ps).stats.fallbacks (CKey.kbool true)
       + (runN cfg os input ps).stats.fallbacks (CKey.kbool false)
       = os.length) ∧
    (∀ (o : Oracles) (q : PipeState),
       ((run cfg o input q).state.stats.fallbacks (CKey.kbool true)
            = q.stats.fallbacks (CKey.kbool true) + 1 ∧
        (run cfg o input q).state.stats.fallbacks (CKey.kbool false)
            = q.stats.fallbacks (CKey.kbool false)) ∨
       ((run cfg o input q).state.stats.fallbacks (CKey.kbool true)
            = q.stats.fallbacks (CKey.kbool true) ∧
        (run cfg o input q).state.stats.fallbacks (CKey.kbool false)
            = q.stats.fallbacks (CKey.kbool false) + 1)) ∧
    (∀ (o : Oracles) (q : PipeState) (k : CKey),
       q.stats.fallbacks k ≤ (run cfg o input q).state.stats.fallbacks k ∧
       q.stats.bias k ≤ (run cfg o input q).state.stats.bias k) := by
  refine ⟨?_, fun o q => run_fallbacks_step cfg o input q,
    fun o q k => run_stats_le cfg o input q k⟩
  rw [runN_fallbacks_sum]
  omega

/-- Witness for C5: one run on a fresh instance leaves the boolean fallback
entries summing to 1. -/
theorem fallback_counters_invariant_witness :
    (runN cfgOn [oClean] "hi" psZero).stats.fallbacks (CKey.kbool true)
      + (runN cfgOn [oClean] "hi" psZero).stats.fallbacks (CKey.kbool false)
      = 1 :=
  (fallback_counters_invariant cfgOn "hi" [oClean] psZero rfl).1


/-- C8: `__init__` raises `ValueError` when `user_input` is a non-string,
non-`None` value, and when the resolved text (after the interactive-read
fallback) strips to nothing; otherwise it stores a non-empty string; when no
input is supplied (`None`), the console read supplies the stored text. -/
theorem init_input_validation :
    (∀ c : String, init_user_input c PyVal.pyother
        = Except.error "user_input must be a string or None") ∧
    (∀ c : String, isBlank c = true →
        init_user_input c PyVal.pynone
          = Except.error "Input text cannot be empty") ∧
    (∀ c s : String, s ≠ "" → isBlank s = true →
        init_user_input c (PyVal.pystr s)
          = Except.error "Input text cannot be empty") ∧
    (∀ (c : String) (v : PyVal) (s : String),
        init_user_input c v = Except.ok s → s ≠ "") ∧
    (∀ c : String, isBlank c = false →
        init_user_input c PyVal.pynone = Except.ok c) := by
  refine ⟨fun c => rfl, ?_, ?_, ?_, ?_⟩
  · intro c h
    simp [init_user_input, h]
  · intro c s hs ht
    simp [init_user_input, hs, ht]
  · intro c v s h
    have hblank : isBlank s = false := by
      cases v with
      | pyother => simp [init_user_input] at h
      | pynone =>
        simp only [init_user_input] at h
        split at h
        · simp at h
        · simp only [Except.ok.injEq] at h
          subst h
          simp_all
      | pystr t =>
        simp only [init_user_input] at h
        split at h <;> split at h <;> simp_all
    intro h0
    rw [h0] at hblank
    simp [isBlank] at hblank
  · intro c hc
    simp [init_user_input, hc]

/-- Witness for C8: a whitespace-only supplied input raises the emptiness
error. -/
theorem init_input_validation_witness :
    init_user_input "console text" (PyVal.pystr "   ")
      = Except.error "Input text cannot be empty" :=
  init_input_validation.2.2.1 "console text" "   " (by decide) (by decide)

end BiasCheck
